import Mathlib

/-
Verification of the takeout_fixer sidecar-matching and metadata-normalization
subsystem, shallowly embedded from the Python sources:
  src/models/metadata.py, src/models/media_file.py,
  src/parsers/json_parser.py, src/parsers/takeout_parser.py.

Modelling conventions:
  - Python float fields that the code only compares for equality with 0.0 and
    for range membership are embedded as Rat (the checked operations are exact).
  - Python datetime values are embedded as Int epoch seconds; the code only
    moves them around and compares them, never does arithmetic on them.
  - Python Optional values become Option; a raised-and-caught exception becomes
    the value none of the surrounding Option result.
  - The filesystem is passed explicitly: a directory listing is a list of
    entries (name plus file/directory flag) and an existence check is list
    membership over the paths that are present.
-/

-- Python str.endswith, on the character list of the string.
def strEndsWith (s post : String) : Bool := post.data.isSuffixOf s.data

-- Python str.lower (ASCII case folding, which is all the extension sets need).
def strToLower (s : String) : String := ⟨s.data.map Char.toLower⟩

-- Index of the last dot of a filename that separates a non-empty stem from a
-- non-empty suffix: pathlib uses name.rfind with the guard 0 < i < len - 1.
def lastDotIdx (cs : List Char) : Option Nat :=
  ((List.range cs.length).filter
    (fun i => cs.getD i ' ' == '.' && decide (0 < i) && decide (i < cs.length - 1))).getLast?

-- pathlib PurePath.stem of a filename.
def pyStem (name : String) : String :=
  match lastDotIdx name.data with
  | some i => ⟨name.data.take i⟩
  | none => name

-- pathlib PurePath.suffix of a filename.
def pySuffixOf (name : String) : String :=
  match lastDotIdx name.data with
  | some i => ⟨name.data.drop i⟩
  | none => ""

-- pathlib PurePath.with_suffix applied with the new suffix ".json": drop the
-- old suffix when there is one, then append ".json".
def withSuffixJson (name : String) : String :=
  let old := pySuffixOf name
  if old == "" then name ++ ".json"
  else (⟨name.data.take (name.data.length - old.data.length)⟩ : String) ++ ".json"

-- parent / name path join.
def joinPath (parent name : String) : String := parent ++ "/" ++ name

-- ===========================================================================
-- models/metadata.py
-- ===========================================================================

-- GPSCoordinates dataclass fields (latitude, longitude, optional altitude).
structure GPSCoordinates where
  latitude : Rat
  longitude : Rat
  altitude : Option Rat
deriving DecidableEq

-- GPSCoordinates construction including the range validation that
-- GPSCoordinates performs: raising ValueError becomes returning none.
def mkGPSCoordinates (lat lon : Rat) (alt : Option Rat) : Option GPSCoordinates :=
  if ¬(-90 ≤ lat ∧ lat ≤ 90) then none
  else if ¬(-180 ≤ lon ∧ lon ≤ 180) then none
  else some ⟨lat, lon, alt⟩

-- The Metadata record: six optional fields, as held by the Metadata class.
structure Metadata where
  datetime_original : Option Int
  gps_coordinates : Option GPSCoordinates
  description : Option String
  title : Option String
  camera_make : Option String
  camera_model : Option String
deriving DecidableEq

-- Python truthiness of an optional string: None and the empty string are
-- falsy, every other string is truthy.
def strTruthy : Option String → Bool
  | none => false
  | some s => !(s == "")

-- Python x or y on optional strings (the operands of merge_with for the
-- description, title, camera_make and camera_model fields).
def pyOrStr (a b : Option String) : Option String := if strTruthy a then a else b

-- Python x or y on optionals whose payload objects are always truthy
-- (datetime and GPSCoordinates instances define neither bool nor len).
def pyOrSome {α : Type} (a b : Option α) : Option α := if a.isSome then a else b

-- Metadata.merge_with from metadata.py: field-wise Python or, with the
-- operand order flipped by prefer_other; builds a new record.
def Metadata.merge_with (self other : Metadata) (prefer_other : Bool) : Metadata :=
  if prefer_other then
    { datetime_original := pyOrSome other.datetime_original self.datetime_original
      gps_coordinates := pyOrSome other.gps_coordinates self.gps_coordinates
      description := pyOrStr other.description self.description
      title := pyOrStr other.title self.title
      camera_make := pyOrStr other.camera_make self.camera_make
      camera_model := pyOrStr other.camera_model self.camera_model }
  else
    { datetime_original := pyOrSome self.datetime_original other.datetime_original
      gps_coordinates := pyOrSome self.gps_coordinates other.gps_coordinates
      description := pyOrStr self.description other.description
      title := pyOrStr self.title other.title
      camera_make := pyOrStr self.camera_make other.camera_make
      camera_model := pyOrStr self.camera_model other.camera_model }

-- Two records have disjoint present-field sets when no field is present
-- (not None) in both.
def Metadata.fieldsDisjoint (a b : Metadata) : Bool :=
  !(a.datetime_original.isSome && b.datetime_original.isSome) &&
  !(a.gps_coordinates.isSome && b.gps_coordinates.isSome) &&
  !(a.description.isSome && b.description.isSome) &&
  !(a.title.isSome && b.title.isSome) &&
  !(a.camera_make.isSome && b.camera_make.isSome) &&
  !(a.camera_model.isSome && b.camera_model.isSome)

-- ===========================================================================
-- models/media_file.py
-- ===========================================================================

inductive MediaType
  | photo
  | video
  | unknown
deriving DecidableEq

def PHOTO_EXTENSIONS : List String :=
  [".jpg", ".jpeg", ".png", ".gif", ".heic", ".heif", ".webp", ".bmp", ".tiff"]

def VIDEO_EXTENSIONS : List String :=
  [".mp4", ".mov", ".avi", ".mkv", ".webm", ".m4v", ".3gp", ".wmv"]

-- MediaFile.extension: the lowercased pathlib suffix of the filename.
def extensionOf (name : String) : String := strToLower (pySuffixOf name)

-- MediaFile.media_type: photo / video / unknown from the extension sets.
def mediaTypeOf (name : String) : MediaType :=
  if PHOTO_EXTENSIONS.contains (extensionOf name) then MediaType.photo
  else if VIDEO_EXTENSIONS.contains (extensionOf name) then MediaType.video
  else MediaType.unknown

-- MediaFile.is_supported_media: extension in the union of the two sets.
def isSupportedMedia (name : String) : Bool :=
  PHOTO_EXTENSIONS.contains (extensionOf name) || VIDEO_EXTENSIONS.contains (extensionOf name)

-- The slice of MediaFile state that get_effective_datetime reads: the
-- filesystem modification time, the optional sidecar path and the optional
-- attached metadata record.
structure MediaFile where
  mtime : Int
  json_path : Option String
  metadata : Option Metadata
deriving DecidableEq

-- MediaFile.get_effective_datetime: metadata datetime if a metadata record is
-- attached and its datetime_original is set, else the file modification time.
-- Both guards in the source are truthiness tests on objects that are truthy
-- exactly when they are not None.
def MediaFile.get_effective_datetime (m : MediaFile) : Int :=
  match m.metadata with
  | some md =>
    match md.datetime_original with
    | some dt => dt
    | none => m.mtime
  | none => m.mtime

-- ===========================================================================
-- parsers/json_parser.py
-- ===========================================================================

-- The fields of a successfully json.load-ed sidecar that JSONParser.parse
-- reads. The photoTakenTime timestamp is modelled after the int() conversion;
-- an absent or falsy (empty string) timestamp is none.
structure SidecarJson where
  title : Option String
  photoTakenTimestamp : Option Int
  geoLatitude : Option Rat
  geoLongitude : Option Rat
  geoAltitude : Option Rat
  description : Option String
deriving DecidableEq

-- Python value != 0.0 where value is an optional number: None compares
-- unequal to 0.0, so absent fields pass this test.
def pyNeqZero : Option Rat → Bool
  | none => true
  | some v => !(decide (v = 0))

-- The call GPSCoordinates(lat, longitude, altitude) made by JSONParser.parse
-- with possibly-None arguments: comparing None against the range bounds in
-- the validator raises TypeError, which the caller catches, so a None
-- latitude or longitude yields no coordinate value.
def mkGPSFromOptional (lat lon alt : Option Rat) : Option GPSCoordinates :=
  match lat, lon with
  | some la, some lo => mkGPSCoordinates la lo alt
  | _, _ => none

-- JSONParser.parse after a successful json.load: build the Metadata record;
-- any exception raised inside the try block (a ValueError or TypeError from
-- GPSCoordinates) leaves metadata_obj as None.
def JSONParser.parseLoaded (j : SidecarJson) : Option Metadata :=
  if pyNeqZero j.geoLatitude && pyNeqZero j.geoLongitude then
    match mkGPSFromOptional j.geoLatitude j.geoLongitude j.geoAltitude with
    | some g =>
      some { datetime_original := j.photoTakenTimestamp, gps_coordinates := some g,
             description := j.description, title := j.title,
             camera_make := none, camera_model := none }
    | none => none
  else
    some { datetime_original := j.photoTakenTimestamp, gps_coordinates := none,
           description := j.description, title := j.title,
           camera_make := none, camera_model := none }

-- The possible states of a sidecar path handed to JSONParser.parse: the path
-- does not exist or is not a regular file, the file cannot be read, the bytes
-- are not valid JSON, or a successfully decoded document.
inductive SidecarFile
  | missing
  | unreadable
  | malformed
  | content (j : SidecarJson)
deriving DecidableEq

-- JSONParser.parse end to end: every failure branch (missing file, IO error,
-- json.JSONDecodeError, both caught or guarded in the source) returns None.
def JSONParser.parse : SidecarFile → Option Metadata
  | SidecarFile.missing => none
  | SidecarFile.unreadable => none
  | SidecarFile.malformed => none
  | SidecarFile.content j => JSONParser.parseLoaded j

-- ===========================================================================
-- parsers/takeout_parser.py
-- ===========================================================================

def JSON_SUFFIXES : List String :=
  [".json", ".supplemental-metadata.json", ".jpg.json", ".png.json", ".mp4.json",
   ".supplemental-met.json", ".supplemental-metad.json"]

def IGNORED_FILES : List String :=
  ["metadata.json", "Metadata.json", "print-subscriptions.json", "shared_album_comments.json"]

-- The ordered folder names tried by _find_google_photos_dir.
def GOOGLE_PHOTOS_NAMES : List String := ["Google Photos", "Google Foto", "Photos"]

-- One entry of a directory listing.
structure DirEntry where
  name : String
  isFile : Bool
deriving DecidableEq

-- TakeoutParser._find_google_photos_dir over the listing of the export root:
-- the first candidate name that is present as a directory.
def findGooglePhotosDir (entries : List DirEntry) : Option String :=
  GOOGLE_PHOTOS_NAMES.find? (fun n => entries.any (fun e => e.name == n && !e.isFile))

-- The diagnostic listing built on failure: names of the directories present.
def availableDirs (entries : List DirEntry) : List String :=
  (entries.filter (fun e => !e.isFile)).map (fun e => e.name)

-- Outcome of TakeoutParser construction once the root is known to exist and
-- be a directory: either the located photos directory, or the structural
-- failure carrying the diagnostic listing and nothing else.
inductive InitResult
  | ok (photosDirName : String)
  | structureError (available : List String)
deriving DecidableEq

-- TakeoutParser.__init__, the photos-directory location step: the ValueError
-- raised when no candidate matches becomes the structureError value.
def TakeoutParser.init (entries : List DirEntry) : InitResult :=
  match findGooglePhotosDir entries with
  | some n => InitResult.ok n
  | none => InitResult.structureError (availableDirs entries)

-- TakeoutParser._find_json_for_media: the suffix-concatenation candidates in
-- order, then the with_suffix fallback, then the stem fallback; existence is
-- membership in the list fs of paths present on disk.
def findJsonForMedia (fs : List String) (parent name : String) : Option String :=
  match (JSON_SUFFIXES.map (fun s => joinPath parent (name ++ s))).find?
      (fun p => fs.contains p) with
  | some p => some p
  | none =>
    let p2 := joinPath parent (withSuffixJson name)
    if fs.contains p2 then some p2
    else
      let p3 := joinPath parent (pyStem name ++ ".json")
      if fs.contains p3 then some p3
      else none

-- The full candidate list, in the order the source tries it.
def sidecarCandidates (parent name : String) : List String :=
  (JSON_SUFFIXES.map (fun s => joinPath parent (name ++ s)))
    ++ [joinPath parent (withSuffixJson name), joinPath parent (pyStem name ++ ".json")]

-- One media file accepted by scan_album: its name and the sidecar path the
-- resolver attached, if any.
structure ScannedFile where
  name : String
  json_path : Option String
deriving DecidableEq

-- TakeoutParser.scan_album over the listing of one album directory: skip
-- non-files, the ignored administrative names, anything whose full path ends
-- in a sidecar suffix, and any file whose MediaFile construction raises
-- (unsupported extension); attach the resolved sidecar to the rest.
def scanAlbum (albumPath : String) (entries : List DirEntry) : List ScannedFile :=
  let fs := entries.map (fun e => joinPath albumPath e.name)
  entries.filterMap (fun e =>
    if !e.isFile then none
    else if IGNORED_FILES.contains e.name then none
    else if JSON_SUFFIXES.any (fun s => strEndsWith (joinPath albumPath e.name) s) then none
    else if isSupportedMedia e.name then
      some { name := e.name, json_path := findJsonForMedia fs albumPath e.name }
    else none)

-- The per-album statistics block built by TakeoutParser.parse.
structure AlbumStats where
  total_files : Nat
  with_json : Nat
  without_json : Nat
  photos : Nat
  videos : Nat
deriving DecidableEq

def albumStats (files : List ScannedFile) : AlbumStats :=
  { total_files := files.length
    with_json := (files.filter (fun f => f.json_path.isSome)).length
    without_json := (files.filter (fun f => !f.json_path.isSome)).length
    photos := (files.filter (fun f => decide (mediaTypeOf f.name = MediaType.photo))).length
    videos := (files.filter (fun f => decide (mediaTypeOf f.name = MediaType.video))).length }

-- The statistics dictionary returned by TakeoutParser.parse.
structure ScanStats where
  albums_scanned : Nat
  files_with_json : Nat
  files_without_json : Nat
  total_files : Nat
  albums : List (String × AlbumStats)
deriving DecidableEq

-- TakeoutParser.parse: scan every album under the photos directory, collect
-- all accepted files, and build the statistics from the scan results.
def TakeoutParser.parse (photosDir : String) (albums : List (String × List DirEntry)) :
    List ScannedFile × ScanStats :=
  let scanned := albums.map (fun a => (a.1, scanAlbum (joinPath photosDir a.1) a.2))
  let allMedia := (scanned.map (fun p => p.2)).flatten
  (allMedia,
   { albums_scanned := albums.length
     files_with_json := (allMedia.filter (fun f => f.json_path.isSome)).length
     files_without_json := (allMedia.filter (fun f => !f.json_path.isSome)).length
     total_files := allMedia.length
     albums := scanned.map (fun p => (p.1, albumStats p.2)) })

-- Number of directory entries of an album that are files but do not appear
-- in the scan result (ignored names, sidecar-suffix files, unsupported types).
def scanSkipped (albumPath : String) (entries : List DirEntry) : Nat :=
  (entries.filter (fun e => e.isFile)).length - (scanAlbum albumPath entries).length

def totalSkipped (photosDir : String) (albums : List (String × List DirEntry)) : Nat :=
  (albums.map (fun a => scanSkipped (joinPath photosDir a.1) a.2)).sum

-- ===========================================================================
-- Claims
-- ===========================================================================

/-- C1: evaluation of the normalizer at the input that decides the claim. The
sidecar carries geoData latitude 0, longitude 5 and altitude 10 — both fields
present, both in range, not both zero — so under the claim the record must
carry the GPS coordinate (0, 5, altitude 10). The code instead requires both
coordinates to be nonzero before building a coordinate, and produces a record
with GPS absent. -/
theorem claim1_equator_point_dropped :
    JSONParser.parseLoaded
        { title := some ("t"), photoTakenTimestamp := some 100,
          geoLatitude := some 0, geoLongitude := some 5, geoAltitude := some 10,
          description := none }
      = some { datetime_original := some 100, gps_coordinates := none,
               description := none, title := some ("t"),
               camera_make := none, camera_model := none } := by
  decide

/-- C2 counterexample: base has description some "x", other has the present
but empty description some "", and preferOther is true. The claim resolves
the field to the other record, which has a value; the code resolves it with
Python or, for which the empty string is falsy, and returns the base value. -/
theorem claim2_counterexample_empty_string :
    (Metadata.merge_with
        { datetime_original := none, gps_coordinates := none, description := some ("x"),
          title := none, camera_make := none, camera_model := none }
        { datetime_original := none, gps_coordinates := none, description := some (""),
          title := none, camera_make := none, camera_model := none }
        true).description = some ("x")
    ∧ (some ("x") : Option String) ≠ some ("") := by
  exact ⟨rfl, by decide⟩

/-- C2 (amended): merge resolves each field to the preferred record (other if
preferOther, else base) when that value is present and, for the four text
fields, non-empty; otherwise to the non-preferred record value exactly as it
is. The result is a new record built from the inputs, which are not changed. -/
theorem claim2_merge_fieldwise (base other : Metadata) (po : Bool) :
    (Metadata.merge_with base other po).datetime_original
        = (if (if po then other else base).datetime_original.isSome
           then (if po then other else base).datetime_original
           else (if po then base else other).datetime_original)
    ∧ (Metadata.merge_with base other po).gps_coordinates
        = (if (if po then other else base).gps_coordinates.isSome
           then (if po then other else base).gps_coordinates
           else (if po then base else other).gps_coordinates)
    ∧ (Metadata.merge_with base other po).description
        = (if strTruthy (if po then other else base).description
           then (if po then other else base).description
           else (if po then base else other).description)
    ∧ (Metadata.merge_with base other po).title
        = (if strTruthy (if po then other else base).title
           then (if po then other else base).title
           else (if po then base else other).title)
    ∧ (Metadata.merge_with base other po).camera_make
        = (if strTruthy (if po then other else base).camera_make
           then (if po then other else base).camera_make
           else (if po then base else other).camera_make)
    ∧ (Metadata.merge_with base other po).camera_model
        = (if strTruthy (if po then other else base).camera_model
           then (if po then other else base).camera_model
           else (if po then base else other).camera_model) := by
  cases po <;>
    exact ⟨rfl, rfl, rfl, rfl, rfl, rfl⟩

-- Searching a two-element list for the first hit, written as the chain of
-- existence checks the source performs.
theorem find_two_ordered {α : Type} (p : α → Bool) (a b : α) :
    List.find? p [a, b] = (if p a then some a else if p b then some b else none) := by
  cases h1 : p a <;> cases h2 : p b <;> simp [List.find?, h1, h2]

/-- C3: the sidecar resolver equals the first-existing-candidate search over
the fixed ordered candidate list — the seven suffix concatenations in order,
then the extension replaced by .json, then the stem with .json appended — and
returns none when no candidate exists; and on the concrete album holding only
IMG_0001.jpg and IMG_0001.jpg.supplemental-metadata.json the resolver returns
that sidecar. -/
theorem claim3_sidecar_resolution :
    (∀ (fs : List String) (parent name : String),
        findJsonForMedia fs parent name
          = (sidecarCandidates parent name).find? (fun p => fs.contains p))
    ∧ findJsonForMedia
        [("album/IMG_0001.jpg"), ("album/IMG_0001.jpg.supplemental-metadata.json")]
        ("album") ("IMG_0001.jpg")
      = some ("album/IMG_0001.jpg.supplemental-metadata.json") := by
  constructor
  · intro fs parent name
    unfold findJsonForMedia sidecarCandidates
    rw [List.find?_append, find_two_ordered]
    cases h : (JSON_SUFFIXES.map (fun s => joinPath parent (name ++ s))).find?
        (fun p => fs.contains p) with
    | some p => rfl
    | none => rfl
  · decide

/-- C4: the effective timestamp of a media entry is the attached metadata
record capture timestamp whenever a record is attached and its timestamp is
present, and the filesystem modification time otherwise — when no record is
attached, when the attached record has no timestamp, and in particular for an
entry with no sidecar and no attached metadata. -/
theorem claim4_effective_datetime (m : MediaFile) :
    (∀ md dt, m.metadata = some md → md.datetime_original = some dt →
        m.get_effective_datetime = dt)
    ∧ (m.metadata = none → m.get_effective_datetime = m.mtime)
    ∧ (∀ md, m.metadata = some md → md.datetime_original = none →
        m.get_effective_datetime = m.mtime)
    ∧ (m.json_path = none ∧ m.metadata = none → m.get_effective_datetime = m.mtime) := by
  refine ⟨?_, ?_, ?_, ?_⟩
  · intro md dt hmd hdt
    simp [MediaFile.get_effective_datetime, hmd, hdt]
  · intro hmd
    simp [MediaFile.get_effective_datetime, hmd]
  · intro md hmd hdt
    simp [MediaFile.get_effective_datetime, hmd, hdt]
  · intro h
    simp [MediaFile.get_effective_datetime, h.2]

/-- C4 witness: an entry whose attached record carries timestamp 7 has
effective timestamp 7; an entry with no sidecar and no metadata has effective
timestamp equal to its modification time 50. -/
theorem claim4_effective_datetime_witness :
    ({ mtime := 50, json_path := none,
       metadata := some { datetime_original := some 7, gps_coordinates := none,
                          description := none, title := none,
                          camera_make := none, camera_model := none } } :
        MediaFile).get_effective_datetime = 7
    ∧ ({ mtime := 50, json_path := none, metadata := none } :
        MediaFile).get_effective_datetime = 50 :=
  ⟨(claim4_effective_datetime _).1 _ 7 rfl rfl,
   (claim4_effective_datetime _).2.2.2 ⟨rfl, rfl⟩⟩

/-- C5: when no name of the fixed ordered photos-directory list is present as
a subdirectory of the export root, construction ends in the structural error
carrying exactly the names of the directories present under the root; the
error value carries no scan result. -/
theorem claim5_structure_error (entries : List DirEntry)
    (h : ∀ n ∈ GOOGLE_PHOTOS_NAMES, ¬ ∃ e ∈ entries, e.name = n ∧ e.isFile = false) :
    TakeoutParser.init entries = InitResult.structureError (availableDirs entries) := by
  have hfind : findGooglePhotosDir entries = none := by
    unfold findGooglePhotosDir
    rw [List.find?_eq_none]
    intro n hn hcontra
    rw [List.any_eq_true] at hcontra
    rcases hcontra with ⟨e, he, hp⟩
    rw [Bool.and_eq_true, beq_iff_eq, Bool.not_eq_true'] at hp
    exact h n hn ⟨e, he, hp.1, hp.2⟩
  simp [TakeoutParser.init, hfind]

/-- C5 witness: a root holding only the directory Foo and the file bar.txt
has no recognized photos directory, and construction reports exactly Foo. -/
theorem claim5_structure_error_witness :
    TakeoutParser.init [⟨"Foo", false⟩, ⟨"bar.txt", true⟩]
      = InitResult.structureError [("Foo")] :=
  (claim5_structure_error [⟨"Foo", false⟩, ⟨"bar.txt", true⟩] (by decide)).trans (by decide)

/-- C6: for every failing sidecar state — missing or non-regular file,
unreadable file, malformed JSON — the normalizer yields no metadata record.
The failure is a return value of the per-file call, not a propagating
exception, so one bad sidecar leaves every other call and the enclosing
album and export scans untouched. -/
theorem claim6_parse_failure_absence (f : SidecarFile)
    (h : f = SidecarFile.missing ∨ f = SidecarFile.unreadable ∨ f = SidecarFile.malformed) :
    JSONParser.parse f = none := by
  rcases h with h | h | h <;> rw [h] <;> rfl

/-- C6 witness: a missing sidecar yields no metadata record. -/
theorem claim6_parse_failure_absence_witness :
    JSONParser.parse SidecarFile.missing = none :=
  claim6_parse_failure_absence SidecarFile.missing (Or.inl rfl)

-- The lengths of the two filter halves of a list add up to its length.
theorem length_filter_split {α : Type} (p : α → Bool) (l : List α) :
    (l.filter p).length + (l.filter (fun x => !(p x))).length = l.length := by
  induction l with
  | nil => rfl
  | cons a t ih => cases h : p a <;> simp [List.filter_cons, h] <;> omega

/-- C7 counterexample: two exports that differ only in a skipped file — the
second album additionally holds notes.txt, an unsupported type that album
scanning skips — produce identical statistics, while the number of skipped
files differs (0 against 1). No reported statistic accounts for the skipped
item, against the claim that every skipped file has a corresponding
statistic. -/
theorem claim7_counterexample_silent_skip :
    (TakeoutParser.parse ("Takeout/Google Photos")
        [(("Album1"), [⟨"a.jpg", true⟩])]).2
      = (TakeoutParser.parse ("Takeout/Google Photos")
        [(("Album1"), [⟨"a.jpg", true⟩, ⟨"notes.txt", true⟩])]).2
    ∧ totalSkipped ("Takeout/Google Photos") [(("Album1"), [⟨"a.jpg", true⟩])] = 0
    ∧ totalSkipped ("Takeout/Google Photos")
        [(("Album1"), [⟨"a.jpg", true⟩, ⟨"notes.txt", true⟩])] = 1 := by
  refine ⟨by decide, by decide, by decide⟩

/-- C7 (amended): every scan that passes the structural checks runs to
completion, and its statistics account exactly for the accepted files: the
album count equals the number of albums, the global total equals the number
of accepted entries and equals the sum of the per-album totals, the
with/without-sidecar counts partition the total, globally and per album.
Files skipped during album scanning appear in no statistic. -/
theorem claim7_stats_account_accepted (photosDir : String)
    (albums : List (String × List DirEntry)) :
    (TakeoutParser.parse photosDir albums).2.albums_scanned = albums.length
    ∧ (TakeoutParser.parse photosDir albums).2.total_files
        = (TakeoutParser.parse photosDir albums).1.length
    ∧ (TakeoutParser.parse photosDir albums).2.files_with_json
        + (TakeoutParser.parse photosDir albums).2.files_without_json
        = (TakeoutParser.parse photosDir albums).2.total_files
    ∧ (TakeoutParser.parse photosDir albums).2.total_files
        = ((TakeoutParser.parse photosDir albums).2.albums.map
            (fun p => p.2.total_files)).sum
    ∧ (∀ files : List ScannedFile,
        (albumStats files).with_json + (albumStats files).without_json
          = (albumStats files).total_files) := by
  refine ⟨rfl, rfl, ?_, ?_, ?_⟩
  · exact length_filter_split (fun f : ScannedFile => f.json_path.isSome) _
  · show ((albums.map (fun a => (a.1, scanAlbum (joinPath photosDir a.1) a.2))).map
          (fun p => p.2)).flatten.length
        = (((albums.map (fun a => (a.1, scanAlbum (joinPath photosDir a.1) a.2))).map
            (fun p => (p.1, albumStats p.2))).map (fun p => p.2.total_files)).sum
    rw [List.length_flatten]
    simp only [List.map_map]
    rfl
  · intro files
    exact length_filter_split (fun f : ScannedFile => f.json_path.isSome) files

/-- C8: for records with disjoint present-field sets, merging A into B with
preferOther false and merging B into A with preferOther true produce
field-by-field identical records. -/
theorem claim8_disjoint_merge_commutes (A B : Metadata)
    (_h : Metadata.fieldsDisjoint A B = true) :
    Metadata.merge_with A B false = Metadata.merge_with B A true := by
  rfl

/-- C8 witness: a record holding only a timestamp and a record holding only a
description and a title have disjoint fields, and the two merges coincide. -/
theorem claim8_disjoint_merge_commutes_witness :
    Metadata.fieldsDisjoint
        { datetime_original := some 100, gps_coordinates := none, description := none,
          title := none, camera_make := none, camera_model := none }
        { datetime_original := none, gps_coordinates := none, description := some ("d"),
          title := some ("T"), camera_make := none, camera_model := none } = true
    ∧ Metadata.merge_with
        { datetime_original := some 100, gps_coordinates := none, description := none,
          title := none, camera_make := none, camera_model := none }
        { datetime_original := none, gps_coordinates := none, description := some ("d"),
          title := some ("T"), camera_make := none, camera_model := none } false
      = Metadata.merge_with
        { datetime_original := none, gps_coordinates := none, description := some ("d"),
          title := some ("T"), camera_make := none, camera_model := none }
        { datetime_original := some 100, gps_coordinates := none, description := none,
          title := none, camera_make := none, camera_model := none } true :=
  ⟨by decide, claim8_disjoint_merge_commutes _ _ (by decide)⟩

/-- C9: GPS construction fails exactly when latitude is outside [-90, 90] or
longitude is outside [-180, 180]; it succeeds, with exactly the given field
values, for every pair within the ranges; and any successfully constructed
coordinate has in-range latitude and longitude. -/
theorem claim9_gps_range_validation (lat lon : Rat) (alt : Option Rat) :
    ((mkGPSCoordinates lat lon alt).isNone ↔
        (lat < -90 ∨ 90 < lat ∨ lon < -180 ∨ 180 < lon))
    ∧ ((-90 ≤ lat ∧ lat ≤ 90) → (-180 ≤ lon ∧ lon ≤ 180) →
        mkGPSCoordinates lat lon alt = some ⟨lat, lon, alt⟩)
    ∧ (∀ c, mkGPSCoordinates lat lon alt = some c →
        -90 ≤ c.latitude ∧ c.latitude ≤ 90 ∧ -180 ≤ c.longitude ∧ c.longitude ≤ 180) := by
  refine ⟨?_, ?_, ?_⟩
  · unfold mkGPSCoordinates
    split_ifs with h1 h2
    · simp only [Option.isNone_some, Bool.false_eq_true, false_iff]
      intro hc
      rcases hc with hc | hc | hc | hc
      · exact absurd h1.1 (not_le.mpr hc)
      · exact absurd h1.2 (not_le.mpr hc)
      · exact absurd h2.1 (not_le.mpr hc)
      · exact absurd h2.2 (not_le.mpr hc)
    · simp only [Option.isNone_none, true_iff]
      rcases not_and_or.mp h2 with hc | hc
      · exact Or.inr (Or.inr (Or.inl (not_le.mp hc)))
      · exact Or.inr (Or.inr (Or.inr (not_le.mp hc)))
    · simp only [Option.isNone_none, true_iff]
      rcases not_and_or.mp h1 with hc | hc
      · exact Or.inl (not_le.mp hc)
      · exact Or.inr (Or.inl (not_le.mp hc))
  · intro hlat hlon
    unfold mkGPSCoordinates
    rw [if_neg (not_not_intro hlat), if_neg (not_not_intro hlon)]
  · intro c hc
    unfold mkGPSCoordinates at hc
    split_ifs at hc with h1 h2
    · have hceq : c = ⟨lat, lon, alt⟩ := by
        injection hc with hinj
        exact hinj.symm
      rw [hceq]
      exact ⟨h1.1, h1.2, h2.1, h2.2⟩

/-- C9 witness: latitude 91 fails, longitude -181 fails, and the in-range
pair (45, 90) constructs the coordinate with exactly those values. -/
theorem claim9_gps_range_validation_witness :
    (mkGPSCoordinates 91 0 none).isNone
    ∧ (mkGPSCoordinates 0 (-181) none).isNone
    ∧ mkGPSCoordinates 45 90 (some 5) = some ⟨45, 90, some 5⟩
    ∧ (-90 ≤ (45 : Rat) ∧ (45 : Rat) ≤ 90 ∧ -180 ≤ (90 : Rat) ∧ (90 : Rat) ≤ 180) :=
  ⟨(claim9_gps_range_validation 91 0 none).1.mpr (Or.inr (Or.inl (by decide))),
   (claim9_gps_range_validation 0 (-181) none).1.mpr (Or.inr (Or.inr (Or.inl (by decide)))),
   (claim9_gps_range_validation 45 90 (some 5)).2.1 (by decide) (by decide),
   (claim9_gps_range_validation 45 90 (some 5)).2.2 ⟨45, 90, some 5⟩
     ((claim9_gps_range_validation 45 90 (some 5)).2.1 (by decide) (by decide))⟩

/-- C10: when the geoData of a sidecar carries exactly one of the latitude
and longitude fields and the present one is nonzero, the normalizer returns
no metadata record at all: the guard passes, the coordinate construction
fails on the absent operand, and the whole parse result is discarded,
including title, description and capture timestamp. -/
theorem claim10_one_sided_geodata_discards_all (j : SidecarJson)
    (h : (j.geoLatitude = none ∧ ∃ v, j.geoLongitude = some v ∧ v ≠ 0)
       ∨ (j.geoLongitude = none ∧ ∃ v, j.geoLatitude = some v ∧ v ≠ 0)) :
    JSONParser.parseLoaded j = none := by
  rcases h with ⟨hlat, v, hlon, hv⟩ | ⟨hlon, v, hlat, hv⟩ <;>
    simp [JSONParser.parseLoaded, pyNeqZero, mkGPSFromOptional, hlat, hlon, hv]

/-- C10 witness: a sidecar carrying a title, a timestamp and a description,
with geoData latitude 12 and no longitude, yields no record. -/
theorem claim10_one_sided_geodata_discards_all_witness :
    JSONParser.parseLoaded
        { title := some ("Beach"), photoTakenTimestamp := some 1686839400,
          geoLatitude := some 12, geoLongitude := none, geoAltitude := none,
          description := some ("d") } = none :=
  claim10_one_sided_geodata_discards_all _ (Or.inr ⟨rfl, 12, rfl, by decide⟩)
